import Mathlib

/-!
Verification development for the scraper engine of the niche-finder
repository (`src/scraper_engine.py`).

The Python sources are shallowly embedded below:

* `check_for_captcha` embeds `ScraperEngine._check_for_captcha`;
* `browserAux` / `directAux` / `make_request_with_retry` embed
  `ScraperEngine._make_request_with_retry`, with the network modelled by an
  oracle `Nat → Attempt` giving the outcome of each fetch attempt and the
  operator hand-off (`_handle_captcha`) modelled by the document `resolved`
  that the browser session shows once the operator is done;
* `ProxyManager` / `get_proxy` embed the `ProxyManager` class;
* `Elem` / `Doc` model the BeautifulSoup interface used by the code
  (element text — fallible, to model parse exceptions —, attribute lookup,
  `select` / `select_one` and `find_next`), and the `extract_*` /
  `scrape_*_loop` / `*Item` functions embed the per-platform extraction
  bodies of `scrape_tiktok_hashtags`, `scrape_amazon_bestsellers`,
  `scrape_reddit_posts` and `scrape_youtube_videos` (the part after the
  fetch, i.e. from `BeautifulSoup(html_content, ...)` on);
* `scraping_tasks` / `scrape_all_platforms` embed task expansion and batch
  aggregation of `ScraperEngine.scrape_all_platforms`, with each task's
  execution abstracted by an oracle `runTask` returning either a record
  list or an exception.

Python string primitives used by the code (`str.lower`, `str.strip`,
`str.lstrip("#")`, `str.split("=")`, the `in` substring test) are embedded
as the `py*` helpers on `List Char`.
-/

/-- Python `str.lower()` restricted to ASCII case folding. -/
def pyLower (s : String) : String := String.mk (s.toList.map Char.toLower)

/-- Python substring test `pat in s` (on exploded strings). -/
def strIn (pat : List Char) : List Char → Bool
  | [] => pat.isEmpty
  | c :: t => pat.isPrefixOf (c :: t) || strIn pat t

/-- Python `str.strip()`: drop whitespace from both ends. -/
def pyStrip (s : String) : String :=
  String.mk (((s.toList.dropWhile Char.isWhitespace).reverse.dropWhile
    Char.isWhitespace).reverse)

/-- Python `str.lstrip("#")`: drop every leading `#`. -/
def pyLstripHash (s : String) : String :=
  String.mk (s.toList.dropWhile (fun c => c = '#'))

/-- Python `str.split("=")` (always a non-empty list of pieces). -/
def splitOnEq : List Char → List (List Char)
  | [] => [[]]
  | a :: t =>
    let r := splitOnEq t
    if a = '=' then [] :: r
    else
      match r with
      | [] => [[a]]
      | h :: t2 => (a :: h) :: t2

/-- Python `s.split("=")[-1]`: the piece after the last `=` (the whole
string when no `=` occurs). -/
def pySplitLastEq (s : String) : String :=
  String.mk ((splitOnEq s.toList).getLastD [])

/-- The `captcha_indicators` list of `ScraperEngine._check_for_captcha`. -/
def captcha_indicators : List String :=
  ["captcha", "robot", "human verification", "security check",
   "prove you\x27re human"]

/-- `ScraperEngine._check_for_captcha`: lowercase the body, then test each
indicator for substring occurrence. -/
def check_for_captcha (html_content : String) : Bool :=
  captcha_indicators.any
    (fun ind => strIn ind.toList (pyLower html_content).toList)

/-- Outcome of one raw fetch attempt: an exception (network error, timeout,
non-2xx raised by `raise_for_status`, browser failure) or a body. -/
inductive Attempt where
  | err
  | ok (body : String)
deriving Repr, DecidableEq

/-- Observable result of one `_make_request_with_retry` call: the returned
value (`none` embeds Python `None`), the sleeps performed (in order), the
number of fetch attempts made in each mode, and how many times the direct
path escalated into browser mode. -/
structure ReqResult where
  result : Option String
  waits : List Nat
  directAttempts : Nat
  browserAttempts : Nat
  escalations : Nat
deriving Repr, DecidableEq

/-- The `use_browser=True` branch of `_make_request_with_retry`.
Arguments mirror the Python loop: `attempt` is the 0-based loop index and
`remaining` the number of loop iterations left (`max_retries - attempt`).
On a fetched body that triggers the detector, `_handle_captcha` hands back
the operator-resolved document `resolved`. On an exception with attempts
remaining, the code sleeps `delay * (attempt + 1)`; on the last attempt it
returns `None`. -/
def browserAux (delay : Nat) (resolved : String) (fetchB : Nat → Attempt) :
    Nat → Nat → ReqResult
  | _, 0 => ⟨none, [], 0, 0, 0⟩
  | attempt, remaining + 1 =>
    match fetchB attempt with
    | Attempt.ok body =>
      let content := if check_for_captcha body then resolved else body
      ⟨some content, [], 0, 1, 0⟩
    | Attempt.err =>
      if remaining = 0 then ⟨none, [], 0, 1, 0⟩
      else
        let r := browserAux delay resolved fetchB (attempt + 1) remaining
        ⟨r.result, delay * (attempt + 1) :: r.waits, r.directAttempts,
          r.browserAttempts + 1, r.escalations⟩

/-- The `use_browser=False` branch of `_make_request_with_retry`. A 2xx
body that triggers the detector abandons the direct path and returns the
result of a fresh browser-mode call (`return self._make_request_with_retry
(url, use_browser=True)`), counted as one escalation. -/
def directAux (max_retries delay : Nat) (resolved : String)
    (fetchB fetchD : Nat → Attempt) : Nat → Nat → ReqResult
  | _, 0 => ⟨none, [], 0, 0, 0⟩
  | attempt, remaining + 1 =>
    match fetchD attempt with
    | Attempt.ok body =>
      if check_for_captcha body then
        let r := browserAux delay resolved fetchB 0 max_retries
        ⟨r.result, r.waits, 1, r.browserAttempts, r.escalations + 1⟩
      else ⟨some body, [], 1, 0, 0⟩
    | Attempt.err =>
      if remaining = 0 then ⟨none, [], 1, 0, 0⟩
      else
        let r := directAux max_retries delay resolved fetchB fetchD
          (attempt + 1) remaining
        ⟨r.result, delay * (attempt + 1) :: r.waits, r.directAttempts + 1,
          r.browserAttempts, r.escalations⟩

/-- `ScraperEngine._make_request_with_retry(url, use_browser)`: the fetch
oracles `fetchB` / `fetchD` give the outcome of the i-th browser-mode /
direct-mode attempt for the one URL of the call. -/
def make_request_with_retry (max_retries delay : Nat) (resolved : String)
    (fetchB fetchD : Nat → Attempt) (use_browser : Bool) : ReqResult :=
  if use_browser then browserAux delay resolved fetchB 0 max_retries
  else directAux max_retries delay resolved fetchB fetchD 0 max_retries

/-- One configured proxy provider entry; `url` is `None` when the dict has
no `url` key (`proxy.get("url")`). -/
structure ProxyEndpoint where
  url : Option String
deriving Repr, DecidableEq

/-- Default endpoint used as the (unreachable) out-of-range fallback when
indexing the provider list. -/
def defaultEndpoint : ProxyEndpoint := ⟨none⟩

/-- State of a `ProxyManager` instance. -/
structure ProxyManager where
  enabled : Bool
  rotation : Bool
  proxies : List ProxyEndpoint
  currentIndex : Nat
deriving Repr, DecidableEq

/-- `ProxyManager.get_proxy`: returns the proxy url (or `None`) and the
successor state (the cursor advances only in rotation mode). -/
def get_proxy (pm : ProxyManager) : Option String × ProxyManager :=
  if !pm.enabled || pm.proxies.isEmpty then (none, pm)
  else if pm.rotation then
    ((pm.proxies.getD pm.currentIndex defaultEndpoint).url,
      { pm with currentIndex := (pm.currentIndex + 1) % pm.proxies.length })
  else ((pm.proxies.getD 0 defaultEndpoint).url, pm)

/-- The outputs of `n` successive `get_proxy()` calls on one manager. -/
def runProxyCalls : ProxyManager → Nat → List (Option String)
  | _, 0 => []
  | pm, n + 1 => (get_proxy pm).1 :: runProxyCalls (get_proxy pm).2 n

/-- A parsed markup element, as the scraper code observes it through
BeautifulSoup: `text` extraction (fallible, modelling per-item parse
exceptions), attribute lookup (`e.has_attr(k)` / `e[k]`), `select` on the
subtree, and `find_next`. -/
inductive Elem where
  | mk (text : Except String String) (attrs : String → Option String)
       (sub : String → List Elem) (nxt : String → Option Elem)

/-- Text content of an element (`e.text`); an `error` models a parse
exception raised while reading the item. -/
def Elem.text : Elem → Except String String
  | Elem.mk t _ _ _ => t

/-- Attribute lookup (`e[k]` guarded by `e.has_attr(k)`). -/
def Elem.attrs : Elem → String → Option String
  | Elem.mk _ a _ _ => a

/-- `e.select(sel)` on the element's subtree. -/
def Elem.select : Elem → String → List Elem
  | Elem.mk _ _ s _ => s

/-- `e.find_next(sel)`. -/
def Elem.findNext : Elem → String → Option Elem
  | Elem.mk _ _ _ n => n

/-- `e.select_one(sel)`: first match of `select`, if any. -/
def Elem.selectOne (e : Elem) (sel : String) : Option Elem :=
  (e.select sel).head?

/-- A parsed document (`soup`), exposing `soup.select`. -/
structure Doc where
  select : String → List Elem

/-- The module-level `PLATFORM_SELECTORS` table (platform, key ↦ CSS
selector string). -/
def PLATFORM_SELECTORS (platform key : String) : String :=
  match platform, key with
  | "tiktok", "hashtags" => ".hashtag"
  | "tiktok", "views" => ".video-count"
  | "tiktok", "fallback_hashtags" => "a[href*=\"/tag/\"]"
  | "amazon", "products" => "[data-zg-item]"
  | "amazon", "product_name" => ".p13n-sc-truncated"
  | "amazon", "price" => ".p13n-sc-price"
  | "amazon", "rating" => ".a-icon-alt"
  | "amazon", "fallback_products" => ".zg-item"
  | "reddit", "posts" => "[data-testid=\"post-container\"]"
  | "reddit", "title" => "[data-testid=\"post-title\"]"
  | "reddit", "upvotes" => "[data-testid=\"upvote-count\"]"
  | "reddit", "comments" => "[data-testid=\"comment-count\"]"
  | "reddit", "fallback_posts" => ".Post"
  | "youtube", "videos" => "ytd-video-renderer,ytd-grid-video-renderer"
  | "youtube", "title" => "#video-title"
  | "youtube", "views" => "#metadata-line span:first-child"
  | "youtube", "date" => "#metadata-line span:last-child"
  | "youtube", "fallback_videos" => ".yt-simple-endpoint.ytd-video-renderer"
  | _, _ => ""

/-- Python `e.text.strip() if e else dflt`: reading the text of a present
element may raise; an absent element yields the default sentinel. -/
def optText (e : Option Elem) (dflt : String) : Except String String :=
  match e with
  | some el =>
    match el.text with
    | Except.ok t => Except.ok (pyStrip t)
    | Except.error msg => Except.error msg
  | none => Except.ok dflt

/-- The accumulation step shared by every platform's `for container in
containers:` loop: the try-block body `item` either produces a record,
appended to `data`, or raises, in which case the `except` clause drops the
item and keeps `data` unchanged. -/
def loopStep {B : Type} (item : Elem -> Except String B)
    (data : List B) (x : Elem) : List B :=
  match item x with
  | Except.ok r => data ++ [r]
  | Except.error _ => data

/-- One TikTok hashtag record as built by `scrape_tiktok_hashtags`. -/
structure TikTokRec where
  platform : String
  type : String
  name : String
  views : String
  url : String
deriving Repr, DecidableEq

/-- Body of the `for tag in hashtags` try-block of
`scrape_tiktok_hashtags` (an `error` is what the `except` catches). -/
def tiktokItem (base_url : String) (tag : Elem) : Except String TikTokRec :=
  match tag.text with
  | Except.error msg => Except.error msg
  | Except.ok t =>
    let tag_name := pyLstripHash (pyStrip t)
    match tag.findNext (PLATFORM_SELECTORS "tiktok" "views") with
    | some view_element =>
      match view_element.text with
      | Except.error msg => Except.error msg
      | Except.ok v =>
        Except.ok
          { platform := "tiktok", type := "hashtag", name := tag_name,
            views := pyStrip v, url := base_url ++ tag_name }
    | none =>
      Except.ok
        { platform := "tiktok", type := "hashtag", name := tag_name,
          views := "N/A", url := base_url ++ tag_name }

/-- The `for tag in hashtags` loop: failing items are skipped. -/
def scrape_tiktok_loop (base_url : String) (hashtags : List Elem) :
    List TikTokRec :=
  hashtags.foldl (loopStep (tiktokItem base_url)) []

/-- Extraction part of `scrape_tiktok_hashtags` (primary selector, fallback
when it matches nothing, then the item loop). -/
def extract_tiktok (base_url : String) (doc : Doc) : List TikTokRec :=
  let hashtags := doc.select (PLATFORM_SELECTORS "tiktok" "hashtags")
  let hashtags :=
    if hashtags.isEmpty then
      doc.select (PLATFORM_SELECTORS "tiktok" "fallback_hashtags")
    else hashtags
  scrape_tiktok_loop base_url hashtags

/-- One Amazon product record as built by `scrape_amazon_bestsellers`. -/
structure AmazonRec where
  platform : String
  type : String
  category : String
  name : String
  price : String
  rating : String
deriving Repr, DecidableEq

/-- Body of the `for product in products` try-block of
`scrape_amazon_bestsellers`. -/
def amazonItem (category : String) (product : Elem) :
    Except String AmazonRec :=
  let name_element := product.selectOne (PLATFORM_SELECTORS "amazon" "product_name")
  let price_element := product.selectOne (PLATFORM_SELECTORS "amazon" "price")
  let rating_element := product.selectOne (PLATFORM_SELECTORS "amazon" "rating")
  match optText name_element "N/A" with
  | Except.error msg => Except.error msg
  | Except.ok name =>
    match optText price_element "N/A" with
    | Except.error msg => Except.error msg
    | Except.ok price =>
      match optText rating_element "N/A" with
      | Except.error msg => Except.error msg
      | Except.ok rating =>
        Except.ok
          { platform := "amazon", type := "product", category := category,
            name := name, price := price, rating := rating }

/-- The `for product in products` loop: failing items are skipped. -/
def scrape_amazon_loop (category : String) (products : List Elem) :
    List AmazonRec :=
  products.foldl (loopStep (amazonItem category)) []

/-- Extraction part of `scrape_amazon_bestsellers`. -/
def extract_amazon (category : String) (doc : Doc) : List AmazonRec :=
  let products := doc.select (PLATFORM_SELECTORS "amazon" "products")
  let products :=
    if products.isEmpty then
      doc.select (PLATFORM_SELECTORS "amazon" "fallback_products")
    else products
  scrape_amazon_loop category products

/-- One Reddit post record as built by `scrape_reddit_posts`. -/
structure RedditRec where
  platform : String
  type : String
  subreddit : String
  title : String
  upvotes : String
  comments : String
deriving Repr, DecidableEq

/-- Body of the `for post in posts` try-block of `scrape_reddit_posts`.
Note the defaults: a missing title yields `"N/A"` but missing upvotes or
comments yield `"0"` (this is what the source does). -/
def redditItem (subreddit : String) (post : Elem) :
    Except String RedditRec :=
  let title_element := post.selectOne (PLATFORM_SELECTORS "reddit" "title")
  let upvotes_element := post.selectOne (PLATFORM_SELECTORS "reddit" "upvotes")
  let comments_element := post.selectOne (PLATFORM_SELECTORS "reddit" "comments")
  match optText title_element "N/A" with
  | Except.error msg => Except.error msg
  | Except.ok title =>
    match optText upvotes_element "0" with
    | Except.error msg => Except.error msg
    | Except.ok upvotes =>
      match optText comments_element "0" with
      | Except.error msg => Except.error msg
      | Except.ok comments =>
        Except.ok
          { platform := "reddit", type := "post", subreddit := subreddit,
            title := title, upvotes := upvotes, comments := comments }

/-- The `for post in posts` loop: failing items are skipped. -/
def scrape_reddit_loop (subreddit : String) (posts : List Elem) :
    List RedditRec :=
  posts.foldl (loopStep (redditItem subreddit)) []

/-- Extraction part of `scrape_reddit_posts`. -/
def extract_reddit (subreddit : String) (doc : Doc) : List RedditRec :=
  let posts := doc.select (PLATFORM_SELECTORS "reddit" "posts")
  let posts :=
    if posts.isEmpty then
      doc.select (PLATFORM_SELECTORS "reddit" "fallback_posts")
    else posts
  scrape_reddit_loop subreddit posts

/-- One YouTube video record as built by `scrape_youtube_videos`;
`video_id` embeds the Python variable that stays `None` when the title
element is absent or has no `href`. -/
structure YouTubeRec where
  platform : String
  type : String
  query : String
  title : String
  views : String
  date : String
  video_id : Option String
  url : String
deriving Repr, DecidableEq

/-- Body of the `for video in videos[:10]` try-block of
`scrape_youtube_videos`. The `url` field reflects Python truthiness: the
watch URL is built only when `video_id` is neither `None` nor the empty
string, otherwise the field is `"N/A"`. -/
def youtubeItem (query : String) (video : Elem) :
    Except String YouTubeRec :=
  let title_element := video.selectOne (PLATFORM_SELECTORS "youtube" "title")
  let views_element := video.selectOne (PLATFORM_SELECTORS "youtube" "views")
  let date_element := video.selectOne (PLATFORM_SELECTORS "youtube" "date")
  match optText title_element "N/A" with
  | Except.error msg => Except.error msg
  | Except.ok title =>
    match optText views_element "N/A" with
    | Except.error msg => Except.error msg
    | Except.ok views =>
      match optText date_element "N/A" with
      | Except.error msg => Except.error msg
      | Except.ok date =>
        let video_id : Option String :=
          match title_element with
          | some te =>
            match te.attrs "href" with
            | some href => some (pySplitLastEq href)
            | none => none
          | none => none
        Except.ok
          { platform := "youtube", type := "video", query := query,
            title := title, views := views, date := date,
            video_id := video_id,
            url :=
              match video_id with
              | some v =>
                if v = "" then "N/A"
                else "https://www.youtube.com/watch?v=" ++ v
              | none => "N/A" }

/-- The `for video in videos[:10]` loop body over an already-truncated
container list: failing items are skipped. -/
def scrape_youtube_loop (query : String) (videos : List Elem) :
    List YouTubeRec :=
  videos.foldl (loopStep (youtubeItem query)) []

/-- Extraction part of `scrape_youtube_videos` (primary selector, fallback,
then the loop over `videos[:10]`). -/
def extract_youtube (query : String) (doc : Doc) : List YouTubeRec :=
  let videos := doc.select (PLATFORM_SELECTORS "youtube" "videos")
  let videos :=
    if videos.isEmpty then
      doc.select (PLATFORM_SELECTORS "youtube" "fallback_videos")
    else videos
  scrape_youtube_loop query (videos.take 10)

/-- One entry of the `platforms` configuration list; `none` in an optional
field embeds a missing dict key (so `p.get(key, default)` applies the
default). -/
structure PlatformConfig where
  name : String
  enabled : Option Bool
  tags : Option (List String)
  categories : Option (List String)
  subreddits : Option (List String)
  search_queries : Option (List String)

/-- Tasks contributed by one enabled platform entry in
`scrape_all_platforms` (the name-based dispatch; unknown names contribute
nothing). -/
def platformTasks (p : PlatformConfig) : List (String × String) :=
  if p.name = "tiktok" then
    (p.tags.getD ["affiliatemarketing"]).map (fun t => ("tiktok", t))
  else if p.name = "amazon" then
    (p.categories.getD ["electronics"]).map (fun c => ("amazon", c))
  else if p.name = "reddit" then
    (p.subreddits.getD ["affiliatemarketing"]).map (fun s => ("reddit", s))
  else if p.name = "youtube" then
    (p.search_queries.getD ["affiliate marketing"]).map
      (fun q => ("youtube", q))
  else []

/-- The flat `scraping_tasks` list built by `scrape_all_platforms` from the
enabled platforms (`p.get("enabled", True)`). -/
def scraping_tasks (platforms : List PlatformConfig) :
    List (String × String) :=
  ((platforms.filter (fun p => p.enabled.getD true)).map platformTasks).flatten

/-- `ScraperEngine.scrape_all_platforms`: expands the configuration into
tasks and aggregates the per-task results; `runTask` abstracts one task's
execution (`future.result()`), an `error` being the exception a crashed
task raises. The pool construction
`ThreadPoolExecutor(max_workers=min(max_workers, len(scraping_tasks)))`
raises `ValueError` when that bound is not positive — in particular
whenever the task list is empty — which the function does not catch; this
is embedded as the `error` branch. -/
def scrape_all_platforms {α : Type} (platforms : List PlatformConfig)
    (max_workers : Int)
    (runTask : String × String → Except String (List α)) :
    Except String (List α) :=
  let tasks := scraping_tasks platforms
  if min max_workers (tasks.length : Int) ≤ 0 then
    Except.error "max_workers must be greater than 0"
  else
    Except.ok (tasks.foldl (fun all_data t =>
      match runTask t with
      | Except.ok result => all_data ++ result
      | Except.error _ => all_data) [])

lemma browserAux_allFail (delay : Nat) (resolved : String)
    (fetchB : Nat → Attempt) (hB : ∀ i, fetchB i = Attempt.err) :
    ∀ remaining attempt,
      browserAux delay resolved fetchB attempt remaining =
        ⟨none, (List.range (remaining - 1)).map
            (fun k => delay * (attempt + 1 + k)), 0, remaining, 0⟩ := by
  intro remaining
  induction remaining with
  | zero =>
    intro attempt
    simp [browserAux]
  | succ r ih =>
    intro attempt
    simp only [browserAux, hB attempt]
    cases r with
    | zero => simp
    | succ r2 =>
      simp only [Nat.succ_ne_zero, if_false, ih (attempt + 1)]
      have hfun : (fun k => delay * (attempt + 1 + k)) ∘ Nat.succ
          = fun k => delay * (attempt + 1 + 1 + k) := by
        funext k
        simp only [Function.comp, Nat.succ_eq_add_one]
        ring
      simp [List.range_succ_eq_map, List.map_map, hfun]

lemma directAux_allFail (max_retries delay : Nat) (resolved : String)
    (fetchB fetchD : Nat → Attempt)
    (hD : ∀ i, fetchD i = Attempt.err) :
    ∀ remaining attempt,
      directAux max_retries delay resolved fetchB fetchD attempt remaining =
        ⟨none, (List.range (remaining - 1)).map
            (fun k => delay * (attempt + 1 + k)), remaining, 0, 0⟩ := by
  intro remaining
  induction remaining with
  | zero =>
    intro attempt
    simp [directAux]
  | succ r ih =>
    intro attempt
    simp only [directAux, hD attempt]
    cases r with
    | zero => simp
    | succ r2 =>
      simp only [Nat.succ_ne_zero, if_false, ih (attempt + 1)]
      have hfun : (fun k => delay * (attempt + 1 + k)) ∘ Nat.succ
          = fun k => delay * (attempt + 1 + 1 + k) := by
        funext k
        simp only [Function.comp, Nat.succ_eq_add_one]
        ring
      simp [List.range_succ_eq_map, List.map_map, hfun]

/-- C1: when every fetch attempt of a `_make_request_with_retry` call
fails, the call makes exactly `max_retries` attempts, the wait inserted
after the k-th failed attempt is `delay * k` for `k = 1 .. max_retries - 1`
(linear backoff), and after the last attempt the call returns the failure
outcome `None` instead of raising. -/
theorem claim_C1 (max_retries delay : Nat) (resolved : String)
    (fetchB fetchD : Nat → Attempt) (use_browser : Bool)
    (hB : ∀ i, fetchB i = Attempt.err) (hD : ∀ i, fetchD i = Attempt.err) :
    (make_request_with_retry max_retries delay resolved fetchB fetchD
        use_browser).result = none ∧
    (make_request_with_retry max_retries delay resolved fetchB fetchD
        use_browser).directAttempts +
      (make_request_with_retry max_retries delay resolved fetchB fetchD
        use_browser).browserAttempts = max_retries ∧
    (make_request_with_retry max_retries delay resolved fetchB fetchD
        use_browser).waits =
      (List.range (max_retries - 1)).map (fun k => delay * (k + 1)) := by
  have hfun : (fun k => delay * (0 + 1 + k)) = fun k => delay * (k + 1) := by
    funext k
    ring
  cases use_browser with
  | false =>
    simp only [make_request_with_retry, Bool.false_eq_true, if_false,
      directAux_allFail max_retries delay resolved fetchB fetchD hD
        max_retries 0, hfun]
    simp
  | true =>
    simp only [make_request_with_retry, if_true,
      browserAux_allFail delay resolved fetchB hB max_retries 0, hfun]
    simp

/-- Witness for C1 at `max_retries = 3`, `delay = 2`: three attempts, waits
`[2, 4]`, result `None`. -/
theorem claim_C1_witness :
    (∀ i : Nat, (fun _ => Attempt.err) i = Attempt.err) ∧
    ((make_request_with_retry 3 2 "resolved" (fun _ => Attempt.err)
        (fun _ => Attempt.err) false).result = none ∧
      (make_request_with_retry 3 2 "resolved" (fun _ => Attempt.err)
          (fun _ => Attempt.err) false).directAttempts +
        (make_request_with_retry 3 2 "resolved" (fun _ => Attempt.err)
          (fun _ => Attempt.err) false).browserAttempts = 3 ∧
      (make_request_with_retry 3 2 "resolved" (fun _ => Attempt.err)
          (fun _ => Attempt.err) false).waits =
        (List.range (3 - 1)).map (fun k => 2 * (k + 1))) :=
  ⟨fun _ => rfl,
    claim_C1 3 2 "resolved" (fun _ => Attempt.err) (fun _ => Attempt.err)
      false (fun _ => rfl) (fun _ => rfl)⟩

lemma browserAux_escalations (delay : Nat) (resolved : String)
    (fetchB : Nat → Attempt) :
    ∀ remaining attempt,
      (browserAux delay resolved fetchB attempt remaining).escalations
        = 0 := by
  intro remaining
  induction remaining with
  | zero => intro attempt; rfl
  | succ r ih =>
    intro attempt
    simp only [browserAux]
    cases hfa : fetchB attempt with
    | ok body => rfl
    | err =>
      cases r with
      | zero => rfl
      | succ r2 =>
        simp only [Nat.succ_ne_zero, if_false]
        exact ih (attempt + 1)

lemma directAux_firstCaptcha (max_retries delay : Nat)
    (resolved body : String) (fetchB fetchD : Nat → Attempt) (k : Nat)
    (hok : fetchD k = Attempt.ok body)
    (hcap : check_for_captcha body = true) :
    ∀ remaining attempt, attempt ≤ k → k < attempt + remaining →
      (∀ j, attempt ≤ j → j < k → fetchD j = Attempt.err) →
      (directAux max_retries delay resolved fetchB fetchD attempt
        remaining).escalations = 1 := by
  intro remaining
  induction remaining with
  | zero =>
    intro attempt h1 h2 _
    exact absurd h2 (by omega)
  | succ r ih =>
    intro attempt hle hlt hprev
    by_cases hak : attempt = k
    · subst hak
      simp only [directAux, hok, hcap, if_true]
      simp [browserAux_escalations]
    · have haltk : attempt < k := lt_of_le_of_ne hle hak
      have herr : fetchD attempt = Attempt.err :=
        hprev attempt le_rfl haltk
      simp only [directAux, herr]
      cases r with
      | zero => exact absurd hlt (by omega)
      | succ r2 =>
        simp only [Nat.succ_ne_zero, if_false]
        exact ih (attempt + 1) (by omega) (by omega)
          (fun j hj1 hj2 => hprev j (by omega) hj2)

/-- C2: when a direct (non-browser) call's first non-failing attempt
returns a body that triggers the CAPTCHA detector, the call escalates into
browser mode exactly once; and a browser-mode call never escalates, so the
escalation cannot loop unboundedly. -/
theorem claim_C2 (max_retries delay : Nat) (resolved body : String)
    (fetchB fetchD : Nat → Attempt) (k : Nat)
    (hk : k < max_retries)
    (hprev : ∀ j, j < k → fetchD j = Attempt.err)
    (hok : fetchD k = Attempt.ok body)
    (hcap : check_for_captcha body = true) :
    (make_request_with_retry max_retries delay resolved fetchB fetchD
        false).escalations = 1 ∧
    ∀ (mr d : Nat) (res : String) (fB fD : Nat → Attempt),
      (make_request_with_retry mr d res fB fD true).escalations = 0 := by
  constructor
  · simp only [make_request_with_retry, Bool.false_eq_true, if_false]
    exact directAux_firstCaptcha max_retries delay resolved body fetchB
      fetchD k hok hcap max_retries 0 (Nat.zero_le k) (by omega)
      (fun j _ hj => hprev j hj)
  · intro mr d res fB fD
    simp only [make_request_with_retry, if_true]
    exact browserAux_escalations d res fB mr 0

/-- Witness for C2: a direct call whose first attempt returns a CAPTCHA
page escalates exactly once. -/
theorem claim_C2_witness :
    check_for_captcha "Please Complete CAPTCHA" = true ∧
    (make_request_with_retry 1 2 "resolved" (fun _ => Attempt.ok "page")
        (fun _ => Attempt.ok "Please Complete CAPTCHA")
        false).escalations = 1 :=
  ⟨by decide,
    (claim_C2 1 2 "resolved" "Please Complete CAPTCHA"
      (fun _ => Attempt.ok "page")
      (fun _ => Attempt.ok "Please Complete CAPTCHA") 0 (by decide)
      (fun j hj => absurd hj (Nat.not_lt_zero j)) rfl (by decide)).1⟩

/-- C3 (exhibit of the failing input): with no configured platforms the
task list is empty, so the worker bound `min(max_workers,
len(scraping_tasks))` is `0` and the `ThreadPoolExecutor` constructor
raises `ValueError` — `scrape_all_platforms` aborts instead of completing
with the empty record list. -/
theorem claim_C3_bug :
    scrape_all_platforms ([] : List PlatformConfig) 5
      (fun _ => Except.ok ([] : List Nat)) =
      Except.error "max_workers must be greater than 0" := rfl

lemma foldl_skip_eq_filterMap {β : Type} (f : Elem → Except String β) :
    ∀ (xs : List Elem) (acc : List β),
      xs.foldl (loopStep f) acc
      = acc ++ xs.filterMap (fun x => (f x).toOption) := by
  intro xs
  induction xs with
  | nil => intro acc; simp
  | cons x t ih =>
    intro acc
    simp only [List.foldl_cons, List.filterMap_cons]
    cases hfx : f x with
    | ok r => simp [loopStep, hfx, ih, Except.toOption]
    | error e => simp [loopStep, hfx, ih, Except.toOption]

lemma scrape_tiktok_loop_eq (base_url : String) (hashtags : List Elem) :
    scrape_tiktok_loop base_url hashtags =
      hashtags.filterMap
        (fun tag => (tiktokItem base_url tag).toOption) := by
  unfold scrape_tiktok_loop
  simpa using foldl_skip_eq_filterMap (tiktokItem base_url) hashtags []

lemma scrape_amazon_loop_eq (category : String) (products : List Elem) :
    scrape_amazon_loop category products =
      products.filterMap
        (fun product => (amazonItem category product).toOption) := by
  unfold scrape_amazon_loop
  simpa using foldl_skip_eq_filterMap (amazonItem category) products []

lemma scrape_reddit_loop_eq (subreddit : String) (posts : List Elem) :
    scrape_reddit_loop subreddit posts =
      posts.filterMap
        (fun post => (redditItem subreddit post).toOption) := by
  unfold scrape_reddit_loop
  simpa using foldl_skip_eq_filterMap (redditItem subreddit) posts []

lemma scrape_youtube_loop_eq (query : String) (videos : List Elem) :
    scrape_youtube_loop query videos =
      videos.filterMap
        (fun video => (youtubeItem query video).toOption) := by
  unfold scrape_youtube_loop
  simpa using foldl_skip_eq_filterMap (youtubeItem query) videos []

/-- C4: a parsing failure inside one container's item is caught and that
item is skipped; every other container of the same batch is still
processed exactly as if the failing one were absent (shown for the TikTok
and Amazon extraction loops). -/
theorem claim_C4 (base_url category : String) (msg1 msg2 : String)
    (pre post pre2 post2 : List Elem) (bad bad2 : Elem)
    (h1 : tiktokItem base_url bad = Except.error msg1)
    (h2 : amazonItem category bad2 = Except.error msg2) :
    scrape_tiktok_loop base_url (pre ++ bad :: post) =
      scrape_tiktok_loop base_url pre ++ scrape_tiktok_loop base_url post ∧
    scrape_amazon_loop category (pre2 ++ bad2 :: post2) =
      scrape_amazon_loop category pre2 ++
        scrape_amazon_loop category post2 := by
  constructor
  · simp [scrape_tiktok_loop_eq, List.filterMap_append, List.filterMap_cons,
      h1, Except.toOption]
  · simp [scrape_amazon_loop_eq, List.filterMap_append, List.filterMap_cons,
      h2, Except.toOption]

/-- An element whose text extraction raises, for exercising the per-item
exception path. -/
def badElemC4 : Elem :=
  Elem.mk (Except.error "malformed text") (fun _ => none) (fun _ => [])
    (fun _ => none)

/-- An element with no sub-elements and readable (empty-ish) text. -/
def goodElemC4 : Elem :=
  Elem.mk (Except.ok "#cats") (fun _ => none) (fun _ => []) (fun _ => none)

/-- An Amazon container whose name element's text extraction raises. -/
def badAmazonC4 : Elem :=
  Elem.mk (Except.ok "") (fun _ => none)
    (fun sel => if sel = ".p13n-sc-truncated" then [badElemC4] else [])
    (fun _ => none)

/-- Witness for C4: one malformed item in the middle of a batch is skipped
while its siblings still produce their records. -/
theorem claim_C4_witness :
    tiktokItem "https://www.tiktok.com/tag/" badElemC4 =
      Except.error "malformed text" ∧
    amazonItem "electronics" badAmazonC4 =
      Except.error "malformed text" ∧
    (scrape_tiktok_loop "https://www.tiktok.com/tag/"
        ([] ++ badElemC4 :: [goodElemC4]) =
      scrape_tiktok_loop "https://www.tiktok.com/tag/" [] ++
        scrape_tiktok_loop "https://www.tiktok.com/tag/" [goodElemC4] ∧
      scrape_amazon_loop "electronics" ([goodElemC4] ++ badAmazonC4 :: []) =
        scrape_amazon_loop "electronics" [goodElemC4] ++
          scrape_amazon_loop "electronics" []) :=
  ⟨rfl, rfl,
    claim_C4 "https://www.tiktok.com/tag/" "electronics" "malformed text"
      "malformed text" [] [goodElemC4] [goodElemC4] [] badElemC4 badAmazonC4
      rfl rfl⟩

/-- C5: for each platform (tiktok, amazon, reddit, youtube), when the
primary container selector matches nothing in the document, the fallback
container selector is applied to the document and extraction proceeds on
its matches, before the extraction is declared empty. -/
theorem claim_C5 (base_url category subreddit query : String)
    (d1 d2 d3 d4 : Doc)
    (h1 : d1.select (PLATFORM_SELECTORS "tiktok" "hashtags") = [])
    (h2 : d2.select (PLATFORM_SELECTORS "amazon" "products") = [])
    (h3 : d3.select (PLATFORM_SELECTORS "reddit" "posts") = [])
    (h4 : d4.select (PLATFORM_SELECTORS "youtube" "videos") = []) :
    extract_tiktok base_url d1 =
      scrape_tiktok_loop base_url
        (d1.select (PLATFORM_SELECTORS "tiktok" "fallback_hashtags")) ∧
    extract_amazon category d2 =
      scrape_amazon_loop category
        (d2.select (PLATFORM_SELECTORS "amazon" "fallback_products")) ∧
    extract_reddit subreddit d3 =
      scrape_reddit_loop subreddit
        (d3.select (PLATFORM_SELECTORS "reddit" "fallback_posts")) ∧
    extract_youtube query d4 =
      scrape_youtube_loop query
        ((d4.select (PLATFORM_SELECTORS "youtube" "fallback_videos")).take
          10) := by
  refine ⟨?_, ?_, ?_, ?_⟩
  · simp [extract_tiktok, h1]
  · simp [extract_amazon, h2]
  · simp [extract_reddit, h3]
  · simp [extract_youtube, h4]

/-- A document in which every selector matches nothing. -/
def emptyDocC5 : Doc := ⟨fun _ => []⟩

/-- Witness for C5 on a document with no primary matches. -/
theorem claim_C5_witness :
    emptyDocC5.select (PLATFORM_SELECTORS "tiktok" "hashtags") = [] ∧
    (extract_tiktok "b" emptyDocC5 =
      scrape_tiktok_loop "b"
        (emptyDocC5.select (PLATFORM_SELECTORS "tiktok" "fallback_hashtags")) ∧
    extract_amazon "c" emptyDocC5 =
      scrape_amazon_loop "c"
        (emptyDocC5.select (PLATFORM_SELECTORS "amazon" "fallback_products")) ∧
    extract_reddit "s" emptyDocC5 =
      scrape_reddit_loop "s"
        (emptyDocC5.select (PLATFORM_SELECTORS "reddit" "fallback_posts")) ∧
    extract_youtube "q" emptyDocC5 =
      scrape_youtube_loop "q"
        ((emptyDocC5.select
          (PLATFORM_SELECTORS "youtube" "fallback_videos")).take 10)) :=
  ⟨rfl,
    claim_C5 "b" "c" "s" "q" emptyDocC5 emptyDocC5 emptyDocC5 emptyDocC5
      rfl rfl rfl rfl⟩

/-- A Reddit title element with readable text. -/
def redditTitleC6 : Elem :=
  Elem.mk (Except.ok "Hello world") (fun _ => none) (fun _ => [])
    (fun _ => none)

/-- A Reddit post container that has a title element but whose upvote and
comment selectors match nothing. -/
def redditPostC6 : Elem :=
  Elem.mk (Except.ok "") (fun _ => none)
    (fun sel =>
      if sel = "[data-testid=\"post-title\"]" then [redditTitleC6] else [])
    (fun _ => none)

/-- A document whose primary Reddit container selector matches exactly that
post. -/
def redditDocC6 : Doc :=
  ⟨fun sel =>
    if sel = "[data-testid=\"post-container\"]" then [redditPostC6]
    else []⟩

/-- C6 counterexample: a matched Reddit container whose upvote selector
fails to match yields a record with `upvotes = "0"`, not the claimed
universal `"N/A"` sentinel. -/
theorem claim_C6_counterexample :
    (extract_reddit "aff" redditDocC6).map RedditRec.upvotes = ["0"] ∧
    ("0" : String) ≠ "N/A" := by
  constructor
  · rfl
  · decide

lemma optText_none_ok (dflt s : String)
    (h : optText none dflt = Except.ok s) : s = dflt := by
  have h2 : (Except.ok dflt : Except String String) = Except.ok s := h
  exact (Except.ok.inj h2).symm

lemma tiktokItem_views_default (base_url : String) (tag : Elem)
    (r : TikTokRec)
    (hv : tag.findNext (PLATFORM_SELECTORS "tiktok" "views") = none)
    (hr : tiktokItem base_url tag = Except.ok r) :
    r.views = "N/A" := by
  simp only [tiktokItem] at hr
  rw [hv] at hr
  cases ht : tag.text with
  | error e =>
    rw [ht] at hr
    simp at hr
  | ok t =>
    rw [ht] at hr
    simp only [Except.ok.injEq] at hr
    rw [← hr]

lemma amazonItem_fields (category : String) (p : Elem) (r : AmazonRec)
    (hr : amazonItem category p = Except.ok r) :
    optText (p.selectOne (PLATFORM_SELECTORS "amazon" "product_name")) "N/A"
        = Except.ok r.name ∧
    optText (p.selectOne (PLATFORM_SELECTORS "amazon" "price")) "N/A"
        = Except.ok r.price ∧
    optText (p.selectOne (PLATFORM_SELECTORS "amazon" "rating")) "N/A"
        = Except.ok r.rating := by
  simp only [amazonItem] at hr
  cases h1 : optText
      (p.selectOne (PLATFORM_SELECTORS "amazon" "product_name")) "N/A" with
  | error e =>
    rw [h1] at hr
    simp at hr
  | ok name =>
    rw [h1] at hr
    cases h2 : optText
        (p.selectOne (PLATFORM_SELECTORS "amazon" "price")) "N/A" with
    | error e =>
      rw [h2] at hr
      simp at hr
    | ok price =>
      rw [h2] at hr
      cases h3 : optText
          (p.selectOne (PLATFORM_SELECTORS "amazon" "rating")) "N/A" with
      | error e =>
        rw [h3] at hr
        simp at hr
      | ok rating =>
        rw [h3] at hr
        simp only [Except.ok.injEq] at hr
        rw [← hr]
        exact ⟨rfl, rfl, rfl⟩

lemma redditItem_fields (subreddit : String) (q : Elem) (r : RedditRec)
    (hr : redditItem subreddit q = Except.ok r) :
    optText (q.selectOne (PLATFORM_SELECTORS "reddit" "title")) "N/A"
        = Except.ok r.title ∧
    optText (q.selectOne (PLATFORM_SELECTORS "reddit" "upvotes")) "0"
        = Except.ok r.upvotes ∧
    optText (q.selectOne (PLATFORM_SELECTORS "reddit" "comments")) "0"
        = Except.ok r.comments := by
  simp only [redditItem] at hr
  cases h1 : optText
      (q.selectOne (PLATFORM_SELECTORS "reddit" "title")) "N/A" with
  | error e =>
    rw [h1] at hr
    simp at hr
  | ok title =>
    rw [h1] at hr
    cases h2 : optText
        (q.selectOne (PLATFORM_SELECTORS "reddit" "upvotes")) "0" with
    | error e =>
      rw [h2] at hr
      simp at hr
    | ok upvotes =>
      rw [h2] at hr
      cases h3 : optText
          (q.selectOne (PLATFORM_SELECTORS "reddit" "comments")) "0" with
      | error e =>
        rw [h3] at hr
        simp at hr
      | ok comments =>
        rw [h3] at hr
        simp only [Except.ok.injEq] at hr
        rw [← hr]
        exact ⟨rfl, rfl, rfl⟩

lemma youtubeItem_fields (query : String) (v : Elem) (r : YouTubeRec)
    (hr : youtubeItem query v = Except.ok r) :
    optText (v.selectOne (PLATFORM_SELECTORS "youtube" "title")) "N/A"
        = Except.ok r.title ∧
    optText (v.selectOne (PLATFORM_SELECTORS "youtube" "views")) "N/A"
        = Except.ok r.views ∧
    optText (v.selectOne (PLATFORM_SELECTORS "youtube" "date")) "N/A"
        = Except.ok r.date ∧
    r.video_id =
      (match v.selectOne (PLATFORM_SELECTORS "youtube" "title") with
      | some te =>
        (match te.attrs "href" with
        | some href => some (pySplitLastEq href)
        | none => none)
      | none => none) ∧
    r.url =
      (match r.video_id with
      | some vid => if vid = "" then "N/A"
        else "https://www.youtube.com/watch?v=" ++ vid
      | none => "N/A") := by
  simp only [youtubeItem] at hr
  cases h1 : optText
      (v.selectOne (PLATFORM_SELECTORS "youtube" "title")) "N/A" with
  | error e =>
    rw [h1] at hr
    simp at hr
  | ok title =>
    rw [h1] at hr
    cases h2 : optText
        (v.selectOne (PLATFORM_SELECTORS "youtube" "views")) "N/A" with
    | error e =>
      rw [h2] at hr
      simp at hr
    | ok views =>
      rw [h2] at hr
      cases h3 : optText
          (v.selectOne (PLATFORM_SELECTORS "youtube" "date")) "N/A" with
      | error e =>
        rw [h3] at hr
        simp at hr
      | ok date =>
        rw [h3] at hr
        simp only [Except.ok.injEq] at hr
        rw [← hr]
        exact ⟨rfl, rfl, rfl, rfl, rfl⟩

/-- C6 (amended): for every platform and every matched container, a field
whose selector fails to match is populated with an explicit sentinel
rather than the field being omitted or the record discarded: `"N/A"` for
tiktok views, amazon name/price/rating, reddit title, and youtube
title/views/date/url, except that reddit's upvote and comment counts use
the sentinel `"0"`; in particular an Amazon container missing a rating
element yields a record with `rating = "N/A"`. -/
theorem claim_C6_amended (base_url category subreddit query : String)
    (tagE p q v : Elem) :
    (tagE.findNext (PLATFORM_SELECTORS "tiktok" "views") = none →
      ∀ r, tiktokItem base_url tagE = Except.ok r → r.views = "N/A") ∧
    (p.select (PLATFORM_SELECTORS "amazon" "product_name") = [] →
      ∀ r, amazonItem category p = Except.ok r → r.name = "N/A") ∧
    (p.select (PLATFORM_SELECTORS "amazon" "price") = [] →
      ∀ r, amazonItem category p = Except.ok r → r.price = "N/A") ∧
    (p.select (PLATFORM_SELECTORS "amazon" "rating") = [] →
      ∀ r, amazonItem category p = Except.ok r → r.rating = "N/A") ∧
    (q.select (PLATFORM_SELECTORS "reddit" "title") = [] →
      ∀ r, redditItem subreddit q = Except.ok r → r.title = "N/A") ∧
    (q.select (PLATFORM_SELECTORS "reddit" "upvotes") = [] →
      ∀ r, redditItem subreddit q = Except.ok r → r.upvotes = "0") ∧
    (q.select (PLATFORM_SELECTORS "reddit" "comments") = [] →
      ∀ r, redditItem subreddit q = Except.ok r → r.comments = "0") ∧
    (v.select (PLATFORM_SELECTORS "youtube" "title") = [] →
      ∀ r, youtubeItem query v = Except.ok r →
        r.title = "N/A" ∧ r.video_id = none ∧ r.url = "N/A") ∧
    (v.select (PLATFORM_SELECTORS "youtube" "views") = [] →
      ∀ r, youtubeItem query v = Except.ok r → r.views = "N/A") ∧
    (v.select (PLATFORM_SELECTORS "youtube" "date") = [] →
      ∀ r, youtubeItem query v = Except.ok r → r.date = "N/A") := by
  refine ⟨?_, ?_, ?_, ?_, ?_, ?_, ?_, ?_, ?_, ?_⟩
  · intro hv r hr
    exact tiktokItem_views_default base_url tagE r hv hr
  · intro hsel r hr
    have hnone : p.selectOne (PLATFORM_SELECTORS "amazon" "product_name")
        = none := by
      simp [Elem.selectOne, hsel]
    have h := (amazonItem_fields category p r hr).1
    rw [hnone] at h
    exact optText_none_ok "N/A" r.name h
  · intro hsel r hr
    have hnone : p.selectOne (PLATFORM_SELECTORS "amazon" "price")
        = none := by
      simp [Elem.selectOne, hsel]
    have h := (amazonItem_fields category p r hr).2.1
    rw [hnone] at h
    exact optText_none_ok "N/A" r.price h
  · intro hsel r hr
    have hnone : p.selectOne (PLATFORM_SELECTORS "amazon" "rating")
        = none := by
      simp [Elem.selectOne, hsel]
    have h := (amazonItem_fields category p r hr).2.2
    rw [hnone] at h
    exact optText_none_ok "N/A" r.rating h
  · intro hsel r hr
    have hnone : q.selectOne (PLATFORM_SELECTORS "reddit" "title")
        = none := by
      simp [Elem.selectOne, hsel]
    have h := (redditItem_fields subreddit q r hr).1
    rw [hnone] at h
    exact optText_none_ok "N/A" r.title h
  · intro hsel r hr
    have hnone : q.selectOne (PLATFORM_SELECTORS "reddit" "upvotes")
        = none := by
      simp [Elem.selectOne, hsel]
    have h := (redditItem_fields subreddit q r hr).2.1
    rw [hnone] at h
    exact optText_none_ok "0" r.upvotes h
  · intro hsel r hr
    have hnone : q.selectOne (PLATFORM_SELECTORS "reddit" "comments")
        = none := by
      simp [Elem.selectOne, hsel]
    have h := (redditItem_fields subreddit q r hr).2.2
    rw [hnone] at h
    exact optText_none_ok "0" r.comments h
  · intro hsel r hr
    have hnone : v.selectOne (PLATFORM_SELECTORS "youtube" "title")
        = none := by
      simp [Elem.selectOne, hsel]
    obtain ⟨h1, -, -, h4, h5⟩ := youtubeItem_fields query v r hr
    rw [hnone] at h1 h4
    have hvid : r.video_id = none := h4
    rw [hvid] at h5
    exact ⟨optText_none_ok "N/A" r.title h1, hvid, h5⟩
  · intro hsel r hr
    have hnone : v.selectOne (PLATFORM_SELECTORS "youtube" "views")
        = none := by
      simp [Elem.selectOne, hsel]
    have h := (youtubeItem_fields query v r hr).2.1
    rw [hnone] at h
    exact optText_none_ok "N/A" r.views h
  · intro hsel r hr
    have hnone : v.selectOne (PLATFORM_SELECTORS "youtube" "date")
        = none := by
      simp [Elem.selectOne, hsel]
    have h := (youtubeItem_fields query v r hr).2.2.1
    rw [hnone] at h
    exact optText_none_ok "N/A" r.date h

/-- An element with readable text, no attributes, no sub-elements and no
`find_next` matches at all: every field selector fails on it. -/
def plainElemC6 : Elem :=
  Elem.mk (Except.ok "x") (fun _ => none) (fun _ => []) (fun _ => none)

/-- The TikTok record produced from `plainElemC6`. -/
def tiktokRecC6 : TikTokRec :=
  { platform := "tiktok", type := "hashtag", name := "x", views := "N/A",
    url := "bx" }

/-- The Amazon record produced from `plainElemC6`. -/
def amazonRecC6 : AmazonRec :=
  { platform := "amazon", type := "product", category := "c",
    name := "N/A", price := "N/A", rating := "N/A" }

/-- The Reddit record produced from `plainElemC6`. -/
def redditRecC6 : RedditRec :=
  { platform := "reddit", type := "post", subreddit := "s",
    title := "N/A", upvotes := "0", comments := "0" }

/-- The YouTube record produced from `plainElemC6`. -/
def ytRecC6 : YouTubeRec :=
  { platform := "youtube", type := "video", query := "q", title := "N/A",
    views := "N/A", date := "N/A", video_id := none, url := "N/A" }

/-- Witness for the amended C6 on a concrete container on which every
field selector fails: every sentinel shows up as claimed. -/
theorem claim_C6_witness :
    tiktokRecC6.views = "N/A" ∧
    (amazonRecC6.name = "N/A" ∧ amazonRecC6.price = "N/A" ∧
      amazonRecC6.rating = "N/A") ∧
    (redditRecC6.title = "N/A" ∧ redditRecC6.upvotes = "0" ∧
      redditRecC6.comments = "0") ∧
    (ytRecC6.title = "N/A" ∧ ytRecC6.video_id = none ∧
      ytRecC6.url = "N/A") ∧
    ytRecC6.views = "N/A" ∧ ytRecC6.date = "N/A" := by
  obtain ⟨h1, h2, h3, h4, h5, h6, h7, h8, h9, h10⟩ :=
    claim_C6_amended "b" "c" "s" "q" plainElemC6 plainElemC6 plainElemC6
      plainElemC6
  exact ⟨h1 rfl tiktokRecC6 rfl,
    ⟨h2 rfl amazonRecC6 rfl, h3 rfl amazonRecC6 rfl, h4 rfl amazonRecC6 rfl⟩,
    ⟨h5 rfl redditRecC6 rfl, h6 rfl redditRecC6 rfl, h7 rfl redditRecC6 rfl⟩,
    h8 rfl ytRecC6 rfl, h9 rfl ytRecC6 rfl, h10 rfl ytRecC6 rfl⟩

/-- A manager with the proxy feature enabled, rotation disabled, and one
endpoint. -/
def pmC7 : ProxyManager := ⟨true, false, [⟨some "http://p1:8080"⟩], 0⟩

/-- C7 counterexample: rotation is disabled and the endpoint set is
non-empty, yet `get_proxy()` returns the first endpoint's url, not `None`
(the guard tests the `enabled` flag, not `rotation`). -/
theorem claim_C7_counterexample :
    pmC7.rotation = false ∧ pmC7.proxies ≠ [] ∧
    (get_proxy pmC7).1 = some "http://p1:8080" := by
  refine ⟨rfl, ?_, rfl⟩
  simp [pmC7]

/-- C7 (amended): `get_proxy()` returns `None` whenever the proxy feature
flag `enabled` is false or the endpoint set is empty (it is the `enabled`
flag, not the rotation flag, that the guard tests). -/
theorem claim_C7_amended (pm : ProxyManager)
    (h : pm.enabled = false ∨ pm.proxies = []) :
    (get_proxy pm).1 = none := by
  rcases h with h | h
  · simp [get_proxy, h]
  · simp [get_proxy, h]

/-- A manager with the proxy feature disabled but rotation on and an
endpoint configured. -/
def pmC7w : ProxyManager := ⟨false, true, [⟨some "u"⟩], 0⟩

/-- Witness for the amended C7. -/
theorem claim_C7_witness :
    (pmC7w.enabled = false ∨ pmC7w.proxies = []) ∧
    (get_proxy pmC7w).1 = none :=
  ⟨Or.inl rfl, claim_C7_amended pmC7w (Or.inl rfl)⟩

/-- A manager with rotation on and an endpoint configured, but the proxy
feature flag off. -/
def pmC8 : ProxyManager := ⟨false, true, [⟨some "http://p1:8080"⟩], 0⟩

/-- C8 counterexample: the endpoint set is non-empty and rotation is
enabled, yet `get_proxy()` returns `None` (not the first endpoint of the
round-robin) because the feature flag `enabled` is false — the claim
omits the `enabled` condition the code requires. -/
theorem claim_C8_counterexample :
    pmC8.rotation = true ∧ pmC8.proxies ≠ [] ∧
    (get_proxy pmC8).1 = none := by
  refine ⟨rfl, ?_, rfl⟩
  simp [pmC8]

lemma runProxyCalls_rotation (n : Nat) :
    ∀ pm : ProxyManager, pm.enabled = true → pm.rotation = true →
      pm.proxies ≠ [] → pm.currentIndex < pm.proxies.length →
      runProxyCalls pm n = (List.range n).map
        (fun k => (pm.proxies.getD
          ((pm.currentIndex + k) % pm.proxies.length)
          defaultEndpoint).url) := by
  induction n with
  | zero => intro pm _ _ _ _; rfl
  | succ m ih =>
    intro pm hen hrot hne hidx
    have hlen : 0 < pm.proxies.length := List.length_pos.mpr hne
    have hgp : get_proxy pm =
        ((pm.proxies.getD pm.currentIndex defaultEndpoint).url,
          { pm with
            currentIndex := (pm.currentIndex + 1) % pm.proxies.length }) := by
      simp [get_proxy, hen, hrot, hne]
    have ih2 := ih
      { pm with currentIndex := (pm.currentIndex + 1) % pm.proxies.length }
      hen hrot hne (Nat.mod_lt _ hlen)
    rw [runProxyCalls, hgp]
    simp only at ih2
    rw [ih2, List.range_succ_eq_map, List.map_cons, List.map_map]
    congr 1
    · simp [Nat.mod_eq_of_lt hidx]
    · apply List.map_congr_left
      intro k _
      simp only [Function.comp, Nat.succ_eq_add_one, Nat.mod_add_mod]
      have harg : pm.currentIndex + 1 + k = pm.currentIndex + (k + 1) := by
        ring
      rw [harg]

lemma runProxyCalls_sticky (n : Nat) :
    ∀ pm : ProxyManager, pm.enabled = true → pm.rotation = false →
      pm.proxies ≠ [] →
      runProxyCalls pm n =
        List.replicate n ((pm.proxies.getD 0 defaultEndpoint).url) := by
  induction n with
  | zero => intro pm _ _ _; rfl
  | succ m ih =>
    intro pm hen hrot hne
    have hgp : get_proxy pm =
        ((pm.proxies.getD 0 defaultEndpoint).url, pm) := by
      simp [get_proxy, hen, hrot, hne]
    rw [runProxyCalls, hgp, ih pm hen hrot hne, List.replicate_succ]

/-- C8 (amended): provided additionally that the proxy feature flag
`enabled` is true (which the code requires): with a non-empty endpoint set
and rotation enabled, successive `get_proxy()` calls return the endpoint
urls in round-robin order, the cursor advancing by one modulo the set size
on each call; with rotation disabled but endpoints present, every call
returns the first endpoint's url. -/
theorem claim_C8_amended (pm : ProxyManager) (hen : pm.enabled = true)
    (hne : pm.proxies ≠ []) (hidx : pm.currentIndex < pm.proxies.length) :
    (pm.rotation = true →
      (get_proxy pm).2.currentIndex =
        (pm.currentIndex + 1) % pm.proxies.length ∧
      ∀ n, runProxyCalls pm n = (List.range n).map
        (fun k => (pm.proxies.getD
          ((pm.currentIndex + k) % pm.proxies.length)
          defaultEndpoint).url)) ∧
    (pm.rotation = false →
      ∀ n, runProxyCalls pm n =
        List.replicate n ((pm.proxies.getD 0 defaultEndpoint).url)) := by
  constructor
  · intro hrot
    constructor
    · simp [get_proxy, hen, hrot, hne]
    · intro n
      exact runProxyCalls_rotation n pm hen hrot hne hidx
  · intro hrot n
    exact runProxyCalls_sticky n pm hen hrot hne

/-- A manager with the feature enabled, rotation on, two endpoints and the
cursor at 0. -/
def pmC8w : ProxyManager := ⟨true, true, [⟨some "a"⟩, ⟨some "b"⟩], 0⟩

/-- Witness for the amended C8: three successive calls walk the two
endpoints round-robin. -/
theorem claim_C8_witness :
    runProxyCalls pmC8w 3 = (List.range 3).map
      (fun k => (pmC8w.proxies.getD
        ((pmC8w.currentIndex + k) % pmC8w.proxies.length)
        defaultEndpoint).url) :=
  ((claim_C8_amended pmC8w rfl (by simp [pmC8w]) (by decide)).1 rfl).2 3

/-- C9: YouTube extraction returns at most 10 records for every document
— the loop runs over `videos[:10]` — even when the primary or fallback
selector matches more than 10 containers. -/
theorem claim_C9 (query : String) (doc : Doc) :
    (extract_youtube query doc).length ≤ 10 := by
  have h : ∀ xs : List Elem,
      (scrape_youtube_loop query (xs.take 10)).length ≤ 10 := by
    intro xs
    rw [scrape_youtube_loop_eq]
    exact le_trans (List.length_filterMap_le _ _)
      (by simp [List.length_take])
  simp only [extract_youtube]
  apply h

/-- A YouTube title element whose `href` ends in `=` (empty token after the
last `=`). -/
def ytTitleC10 : Elem :=
  Elem.mk (Except.ok "Great video")
    (fun k => if k = "href" then some "/watch?v=" else none)
    (fun _ => []) (fun _ => none)

/-- A video container whose title selector matches that element. -/
def ytVideoC10 : Elem :=
  Elem.mk (Except.ok "") (fun _ => none)
    (fun sel => if sel = "#video-title" then [ytTitleC10] else [])
    (fun _ => none)

/-- C10 counterexample: the title element is present and has an `href`
(ending in `=`), so `video_id` is `some ""` — yet the record's `url` is
the sentinel `"N/A"`, not the claimed
`"https://www.youtube.com/watch?v=" ++ video_id`. -/
theorem claim_C10_counterexample :
    youtubeItem "q" ytVideoC10 = Except.ok
      { platform := "youtube", type := "video", query := "q",
        title := "Great video", views := "N/A", date := "N/A",
        video_id := some "", url := "N/A" } ∧
    ("N/A" : String) ≠ "https://www.youtube.com/watch?v=" ++ "" := by
  constructor
  · rfl
  · decide

/-- C10 (amended): when the title element is present and has an `href`,
`video_id` is the token after the last `=` of that href (the whole href
when it contains no `=`), and `url` is the canonical watch URL built from
that token when the token is non-empty, but the sentinel `"N/A"` when the
token is the empty string (href ending in `=`); when the title element is
absent, or present without `href`, `video_id` is `None` and `url` is
`"N/A"`. -/
theorem claim_C10_amended (query href : String) (video te : Elem)
    (rest : List Elem) :
    (video.select (PLATFORM_SELECTORS "youtube" "title") = te :: rest →
      te.attrs "href" = some href →
      ∀ r, youtubeItem query video = Except.ok r →
        r.video_id = some (pySplitLastEq href) ∧
        r.url = (if pySplitLastEq href = "" then "N/A"
          else "https://www.youtube.com/watch?v=" ++ pySplitLastEq href)) ∧
    (video.select (PLATFORM_SELECTORS "youtube" "title") = [] →
      ∀ r, youtubeItem query video = Except.ok r →
        r.video_id = none ∧ r.url = "N/A") ∧
    (video.select (PLATFORM_SELECTORS "youtube" "title") = te :: rest →
      te.attrs "href" = none →
      ∀ r, youtubeItem query video = Except.ok r →
        r.video_id = none ∧ r.url = "N/A") := by
  have main : ∀ (hsel : Option Elem),
      video.selectOne (PLATFORM_SELECTORS "youtube" "title") = hsel →
      ∀ r, youtubeItem query video = Except.ok r →
        r.video_id =
          (match hsel with
          | some t =>
            (match t.attrs "href" with
            | some h => some (pySplitLastEq h)
            | none => none)
          | none => none) ∧
        r.url =
          (match (match hsel with
            | some t =>
              (match t.attrs "href" with
              | some h => some (pySplitLastEq h)
              | none => none)
            | none => none) with
          | some v => if v = "" then "N/A"
            else "https://www.youtube.com/watch?v=" ++ v
          | none => "N/A") := by
    intro hsel hone r hr
    simp only [youtubeItem] at hr
    rw [hone] at hr
    cases h1 : optText hsel "N/A" with
    | error e =>
      rw [h1] at hr
      simp at hr
    | ok title =>
      rw [h1] at hr
      cases h2 : optText
          (video.selectOne (PLATFORM_SELECTORS "youtube" "views"))
          "N/A" with
      | error e =>
        rw [h2] at hr
        simp at hr
      | ok views =>
        rw [h2] at hr
        cases h3 : optText
            (video.selectOne (PLATFORM_SELECTORS "youtube" "date"))
            "N/A" with
        | error e =>
          rw [h3] at hr
          simp at hr
        | ok date =>
          rw [h3] at hr
          simp only [Except.ok.injEq] at hr
          rw [← hr]
          cases hsel with
          | none => exact ⟨rfl, rfl⟩
          | some t =>
            cases t.attrs "href" with
            | none => exact ⟨rfl, rfl⟩
            | some h => exact ⟨rfl, rfl⟩
  refine ⟨?_, ?_, ?_⟩
  · intro hs hhref r hr
    have hone : video.selectOne (PLATFORM_SELECTORS "youtube" "title")
        = some te := by
      simp [Elem.selectOne, hs]
    have := main (some te) hone r hr
    simp only [hhref] at this
    exact this
  · intro hs r hr
    have hone : video.selectOne (PLATFORM_SELECTORS "youtube" "title")
        = none := by
      simp [Elem.selectOne, hs]
    exact main none hone r hr
  · intro hs hhref r hr
    have hone : video.selectOne (PLATFORM_SELECTORS "youtube" "title")
        = some te := by
      simp [Elem.selectOne, hs]
    have := main (some te) hone r hr
    simp only [hhref] at this
    exact this

/-- A YouTube title element with an ordinary `watch?v=` href. -/
def ytTitleC10w : Elem :=
  Elem.mk (Except.ok "T")
    (fun k => if k = "href" then some "/watch?v=abc123" else none)
    (fun _ => []) (fun _ => none)

/-- A video container whose title selector matches that element. -/
def ytVideoC10w : Elem :=
  Elem.mk (Except.ok "") (fun _ => none)
    (fun sel => if sel = "#video-title" then [ytTitleC10w] else [])
    (fun _ => none)

/-- Witness for the amended C10 on a concrete href with one `=`. -/
theorem claim_C10_witness :
    ({ platform := "youtube", type := "video", query := "q", title := "T",
       views := "N/A", date := "N/A", video_id := some "abc123",
       url := "https://www.youtube.com/watch?v=abc123" } : YouTubeRec).video_id
      = some (pySplitLastEq "/watch?v=abc123") ∧
    ({ platform := "youtube", type := "video", query := "q", title := "T",
       views := "N/A", date := "N/A", video_id := some "abc123",
       url := "https://www.youtube.com/watch?v=abc123" } : YouTubeRec).url
      = (if pySplitLastEq "/watch?v=abc123" = "" then "N/A"
        else "https://www.youtube.com/watch?v="
          ++ pySplitLastEq "/watch?v=abc123") :=
  (claim_C10_amended "q" "/watch?v=abc123" ytVideoC10w ytTitleC10w []).1
    rfl rfl
    { platform := "youtube", type := "video", query := "q", title := "T",
      views := "N/A", date := "N/A", video_id := some "abc123",
      url := "https://www.youtube.com/watch?v=abc123" } rfl
